import Mathlib

/-!
Verification of the OneLight device discovery and control engine
(`src/api/device_manager.py` together with the persistence layer
`src/database/database.py`).

The Python code is shallowly embedded: each Python method becomes a pure
Lean function.  Network I/O (the kasa discovery scan, adapter commands)
is passed in as explicit `Except`-valued oracle arguments, so a call such
as `await adapter.turn_on()` is modelled by an argument describing the
outcome the network produced.  Raising an exception is modelled by
`Except.error`; the mutable `self` state of `DeviceManager` (the adapter
cache) and the database content are threaded explicitly.
-/

namespace OneLight

/-- Python exception values that the embedded code can raise.  `keyError`
is `KeyError("Device not found")`, `runtimeError` is
`RuntimeError("Device has no IP address")`, `indexError` is the
`IndexError` raised by indexing an empty list, and `exc n` stands for an
arbitrary exception produced by the environment (network, drivers). -/
inductive PyErr where
  | keyError
  | runtimeError
  | indexError
  | exc (n : Nat)
deriving DecidableEq, Repr

/-- Modelled from the spec: one row of the `devices` table.  The schema
file `onelight_init_schema.sql` is not among the sources; the fields
follow the spec's RegisteredDevice record and the column list used by
`OneLightDB.add_device` (`name, model, owner_id, ip, mac, provisioned`)
plus the `status` and `last_seen` columns that `update_device_info`
names and the tests' FakeDB materialises with default `None`. -/
structure Device where
  id : Nat
  name : String
  model : String
  owner_id : Nat
  ip : Option String
  mac : Option String
  provisioned : Bool
  status : Option String
  last_seen : Option String
deriving DecidableEq, Repr

/-- The persistent database: the rows of the `devices` table plus the
next rowid sqlite will assign (sqlite rowids start at 1). -/
structure DB where
  rows : List Device
  nextId : Nat
deriving DecidableEq, Repr

/-- OneLightDB.get_device_by_id: `SELECT * FROM devices WHERE id = ? LIMIT 1`. -/
def getDeviceById (db : DB) (deviceId : Nat) : Option Device :=
  db.rows.find? (fun d => d.id == deviceId)

/-- OneLightDB.get_device_by_ip: `SELECT * FROM devices WHERE ip = ? LIMIT 1`.
A row whose `ip` column is NULL never compares equal in SQL, so only rows
with `ip = some ip` match. -/
def getDeviceByIp (db : DB) (ip : String) : Option Device :=
  db.rows.find? (fun d => d.ip == some ip)

/-- OneLightDB.get_device_by_mac: `SELECT * FROM devices WHERE mac = ? LIMIT 1`. -/
def getDeviceByMac (db : DB) (mac : String) : Option Device :=
  db.rows.find? (fun d => d.mac == some mac)

/-- The `allowed` field whitelist of OneLightDB.update_device_info.
Note that `last_seen` is not in it. -/
def allowedFields : List String :=
  ["name", "model", "ip", "mac", "status", "provisioned"]

/-- Application of a single `SET k = v` item to a row.  Column values are
modelled as strings (the only updates issued by the device manager are
`status` and `last_seen`, both strings); `provisioned` is stored as an
integer in sqlite and a nonzero string is truthy. -/
def applyField (d : Device) (k v : String) : Device :=
  if k = "name" then { d with name := v }
  else if k = "model" then { d with model := v }
  else if k = "ip" then { d with ip := some v }
  else if k = "mac" then { d with mac := some v }
  else if k = "status" then { d with status := some v }
  else if k = "provisioned" then { d with provisioned := v ≠ "0" }
  else d

/-- OneLightDB.update_device_info: filters the keyword arguments through
`allowedFields`, returns `False` when nothing survives, otherwise issues
`UPDATE devices SET ... WHERE id = ?` and returns `True`.  The kwargs
dict is modelled as an association list in insertion order. -/
def updateDeviceInfo (db : DB) (deviceId : Nat) (fields : List (String × String)) :
    Bool × DB :=
  let updates := fields.filter (fun kv => allowedFields.contains kv.1)
  if updates.isEmpty then (false, db)
  else
    (true,
      { db with
        rows := db.rows.map (fun d =>
          if d.id == deviceId then updates.foldl (fun d kv => applyField d kv.1 kv.2) d
          else d) })

/-- OneLightDB.update_device_status: when `last_seen` is truthy (present
and non-empty) it forwards both `status` and `last_seen` to
update_device_info, otherwise only `status`. -/
def updateDeviceStatus (db : DB) (deviceId : Nat) (status : String)
    (last_seen : Option String) : Bool × DB :=
  match last_seen with
  | some s =>
      if s ≠ "" then updateDeviceInfo db deviceId [("status", status), ("last_seen", s)]
      else updateDeviceInfo db deviceId [("status", status)]
  | none => updateDeviceInfo db deviceId [("status", status)]

/-- OneLightDB.add_device: inserts a row and returns `cur.lastrowid`, or
`-1` when the insert raises (the `insertFails` oracle stands for the
sqlite exception path, e.g. a constraint violation). -/
def addDevice (db : DB) (name model : String) (owner_id : Nat)
    (ip mac : Option String) (provisioned : Bool) (insertFails : Bool) : Int × DB :=
  if insertFails then (-1, db)
  else
    (Int.ofNat db.nextId,
      { rows := db.rows ++
          [{ id := db.nextId, name := name, model := model, owner_id := owner_id,
             ip := ip, mac := mac, provisioned := provisioned,
             status := none, last_seen := none }],
        nextId := db.nextId + 1 })

/-- Shape of one raw kasa discovery response (`info` in
DeviceManager.discover).  `dict` is the mapping shape: the top-level
`mac`/`model` entries and the nested `sys_info` entries, each `none` when
the key is missing (`dict.get` returns `None`).  `obj` is the
device-object shape, where reading the `mac` attribute and then the
`model` attribute each either yields a value or raises (`none` = the
attribute access raised, caught by the `except: pass`).  The
`raw_payload` content is not modelled: no claim depends on it. -/
inductive Info where
  | dict (mac sysMac model sysModel : Option String)
  | obj (macAttr : Option (Option String)) (modelAttr : Option (Option String))
deriving DecidableEq, Repr

/-- Python `a or b` on the two optional-string `get` results: the second
operand is used when the first is `None` or the empty string. -/
def pyOr (a b : Option String) : Option String :=
  match a with
  | some s => if s = "" then b else some s
  | none => b

/-- The mac/model extraction of DeviceManager.discover lines 179-190.
Both start as `None`; in the dict shape the top-level entry is tried
before the `sys_info` one with Python `or`; in the object shape the
attribute reads run in order inside a `try` whose `except` keeps
whatever was already bound. -/
def infoMacModel : Info → Option String × Option String
  | .dict m sm md smd => (pyOr m sm, pyOr md smd)
  | .obj none _ => (none, none)
  | .obj (some m) none => (m, none)
  | .obj (some m) (some md) => (m, md)

/-- A normalized discovery record `{ip, mac, model, raw}` as appended by
DeviceManager.discover (the opaque `raw` payload is not modelled). -/
structure DRecord where
  ip : String
  mac : Option String
  model : Option String
deriving DecidableEq, Repr

/-- The per-response loop of DeviceManager.discover: extract mac/model,
skip the response when the registry already holds its ip or mac
(each lookup guarded by Python truthiness: skipped for `None`/empty),
otherwise append the normalized record.  Arrival order is kept. -/
def dedupLoop (db : DB) : List (String × Info) → List DRecord
  | [] => []
  | (ip, info) :: rest =>
      let mm := infoMacModel info
      let existingByIp := if ip ≠ "" then getDeviceByIp db ip else none
      let existingByMac :=
        match mm.1 with
        | some m => if m ≠ "" then getDeviceByMac db m else none
        | none => none
      if existingByIp.isSome || existingByMac.isSome then dedupLoop db rest
      else { ip := ip, mac := mm.1, model := mm.2 } :: dedupLoop db rest

/-- DeviceManager.discover.  `scan1` is the outcome of the initial
time-bounded `Discover.discover` call (issued with the detected
broadcast target when one was found, without one otherwise — the choice
does not affect the rest of the control flow, so both are the one
oracle); `scanRetry` is the outcome of the parameterless
`Discover.discover()` retry, consulted only when the initial scan
succeeded with zero responses.  Every exception inside the `try` block
is caught, leaving `discovered` as accumulated so far (empty when the
scan itself raised).  After the `try`, the debug logging lines index
`discovered[0]` inside eagerly evaluated f-strings, so an empty
`discovered` list raises `IndexError` instead of being returned. -/
def discover (db : DB) (scan1 scanRetry : Except PyErr (List (String × Info))) :
    Except PyErr (List DRecord) :=
  let discovered : List DRecord :=
    match scan1 with
    | .error _ => []
    | .ok results =>
        if results.isEmpty then
          match scanRetry with
          | .error _ => []
          | .ok r => dedupLoop db r
        else dedupLoop db results
  if discovered.isEmpty then .error .indexError else .ok discovered

/-- A KasaAdapter instance; it is constructed from and keeps the device's
ip.  (The lazily created `plug` session object is not part of the
observable state the claims mention; the outcome of the session's
operations is supplied by oracles.) -/
structure KasaAdapter where
  ip : String
deriving DecidableEq, Repr

/-- KasaAdapter.turn_on / turn_off: `await self._ensure()` runs first and
propagates its exceptions; then the plug command runs and any exception
is re-raised.  `ensure` and `cmd` are the outcomes of those two steps. -/
def kasaTurn (ensure : Except PyErr Unit) (cmd : Except PyErr Unit) :
    Except PyErr Unit :=
  match ensure with
  | .error e => .error e
  | .ok _ => cmd

/-- The normalized state mapping returned by get_state: exactly the
dictionary `{"is_on": bool}`. -/
structure StateMap where
  is_on : Bool
deriving DecidableEq, Repr

/-- KasaAdapter.get_state: `await self._ensure()` runs outside the
`try` and propagates; inside the `try`, evaluating the plug's state
(`read`) either yields the boolean or raises, and the `except` branch
returns `{"is_on": False}`. -/
def kasaGetState (ensure : Except PyErr Unit) (read : Except PyErr Bool) :
    Except PyErr StateMap :=
  match ensure with
  | .error e => .error e
  | .ok _ =>
      match read with
      | .error _ => .ok { is_on := false }
      | .ok b => .ok { is_on := b }

/-- The mutable state of a DeviceManager: the database handle's content
and the adapter cache keyed by device id.  A Python dict assignment is
modelled by consing; lookup takes the most recent binding. -/
structure DMState where
  db : DB
  cache : List (Nat × KasaAdapter)
deriving DecidableEq, Repr

/-- Lookup in the adapter cache (`device_id in self._adapter_cache`). -/
def lookupCache (cache : List (Nat × KasaAdapter)) (deviceId : Nat) :
    Option KasaAdapter :=
  (cache.find? (fun kv => kv.1 == deviceId)).map (fun kv => kv.2)

/-- DeviceManager._adapter_for_device: return the cached adapter when
present; otherwise read the record's ip — `if not ip` raises
`RuntimeError("Device has no IP address")` for a missing or empty ip —
then construct a KasaAdapter bound to the ip, cache it and return it.
The first component is the returned adapter or the raised exception, the
second the (possibly extended) manager state. -/
def adapterForDevice (st : DMState) (device : Device) :
    Except PyErr KasaAdapter × DMState :=
  match lookupCache st.cache device.id with
  | some a => (.ok a, st)
  | none =>
      match device.ip with
      | none => (.error .runtimeError, st)
      | some ip =>
          if ip = "" then (.error .runtimeError, st)
          else
            let a : KasaAdapter := { ip := ip }
            (.ok a, { st with cache := (device.id, a) :: st.cache })

/-- DeviceManager.turn_on: look the device up (raise
`KeyError("Device not found")` when absent), resolve the adapter, run
the adapter command (outcome `kasaTurn ensure cmd`), and only after it
returns successfully write `status="on"` with `last_seen=now` through
update_device_status.  Exceptions propagate; state mutated so far
(the adapter cache) persists across a raise. -/
def turnOn (st : DMState) (deviceId : Nat) (ensure cmd : Except PyErr Unit)
    (now : String) : Except PyErr Unit × DMState :=
  match getDeviceById st.db deviceId with
  | none => (.error .keyError, st)
  | some device =>
      match adapterForDevice st device with
      | (.error e, st1) => (.error e, st1)
      | (.ok _, st1) =>
          match kasaTurn ensure cmd with
          | .error e => (.error e, st1)
          | .ok _ =>
              (.ok (),
                { st1 with
                  db := (updateDeviceStatus st1.db deviceId "on" (some now)).2 })

/-- DeviceManager.turn_off, same shape as turn_on with `status="off"`. -/
def turnOff (st : DMState) (deviceId : Nat) (ensure cmd : Except PyErr Unit)
    (now : String) : Except PyErr Unit × DMState :=
  match getDeviceById st.db deviceId with
  | none => (.error .keyError, st)
  | some device =>
      match adapterForDevice st device with
      | (.error e, st1) => (.error e, st1)
      | (.ok _, st1) =>
          match kasaTurn ensure cmd with
          | .error e => (.error e, st1)
          | .ok _ =>
              (.ok (),
                { st1 with
                  db := (updateDeviceStatus st1.db deviceId "off" (some now)).2 })

/-- DeviceManager.get_state: look the device up (KeyError when absent),
resolve the adapter, read the state through KasaAdapter.get_state, then
write the observed status (`"on"` when `is_on` is truthy else `"off"`)
with `last_seen=now` and return the state mapping. -/
def getState (st : DMState) (deviceId : Nat) (ensure : Except PyErr Unit)
    (read : Except PyErr Bool) (now : String) : Except PyErr StateMap × DMState :=
  match getDeviceById st.db deviceId with
  | none => (.error .keyError, st)
  | some device =>
      match adapterForDevice st device with
      | (.error e, st1) => (.error e, st1)
      | (.ok _, st1) =>
          match kasaGetState ensure read with
          | .error e => (.error e, st1)
          | .ok s =>
              (.ok s,
                { st1 with
                  db := (updateDeviceStatus st1.db deviceId
                    (if s.is_on then "on" else "off") (some now)).2 })

/-- The model defaulting of provision:
`model = discovery_record.get("model") or "unknown"` — a missing or
falsy (empty) model becomes "unknown". -/
def defaultedModel (model : Option String) : String :=
  match model with
  | some s => if s ≠ "" then s else "unknown"
  | none => "unknown"

/-- DeviceManager.provision: read `ip`, `mac`, `model` from the
discovery-record dict (`.get`, so each may be absent), default the model
to "unknown" when falsy, insert through add_device with
`provisioned=True`, and return the new id when it is truthy and not
`-1`, else `-1`.  The function is total: it raises nothing (add_device
already converts its exceptions to `-1`). -/
def provision (st : DMState) (ip mac model : Option String) (owner_id : Nat)
    (name : String) (insertFails : Bool) : Int × DMState :=
  let r := addDevice st.db name (defaultedModel model) owner_id ip mac true insertFails
  if r.1 ≠ 0 ∧ r.1 ≠ -1 then (r.1, { st with db := r.2 })
  else (-1, { st with db := r.2 })

/-! Helper predicates and lemmas shared by several claims. -/

/-- The registered-device check applied by discover to a response's ip
(line 193): an ip matches an existing record when it is non-empty (the
Python truthiness guard `if ip`) and `get_device_by_ip` finds a row.
(`get_device_by_ip` is never consulted for an empty ip.) -/
def registeredByIp (db : DB) (ip : String) : Bool :=
  (ip != "") && (getDeviceByIp db ip).isSome

/-- The registered-device check applied by discover to a response's mac
(line 194): a mac matches an existing record when it is present,
non-empty, and `get_device_by_mac` finds a row. -/
def registeredByMac (db : DB) (mac : Option String) : Bool :=
  match mac with
  | some m => (m != "") && (getDeviceByMac db m).isSome
  | none => false

theorem dedupLoop_cons (db : DB) (ip : String) (info : Info)
    (tl : List (String × Info)) :
    dedupLoop db ((ip, info) :: tl) =
      if registeredByIp db ip || registeredByMac db (infoMacModel info).1
      then dedupLoop db tl
      else { ip := ip, mac := (infoMacModel info).1, model := (infoMacModel info).2 }
        :: dedupLoop db tl := by
  have h1 : (if ip ≠ "" then getDeviceByIp db ip else none).isSome
      = registeredByIp db ip := by
    by_cases h : ip = "" <;> simp [registeredByIp, h]
  have h2 : (match (infoMacModel info).1 with
      | some m => if m ≠ "" then getDeviceByMac db m else none
      | none => none).isSome = registeredByMac db (infoMacModel info).1 := by
    rcases (infoMacModel info).1 with _ | m
    · simp [registeredByMac]
    · by_cases h : m = "" <;> simp [registeredByMac, h]
  simp only [dedupLoop, h1, h2]

theorem dedupLoop_not_registered (db : DB) :
    ∀ (l : List (String × Info)) (r : DRecord), r ∈ dedupLoop db l →
      registeredByIp db r.ip = false ∧ registeredByMac db r.mac = false := by
  intro l
  induction l with
  | nil => intro r hr; simp [dedupLoop] at hr
  | cons hd tl ih =>
      intro r hr
      obtain ⟨ip, info⟩ := hd
      rw [dedupLoop_cons] at hr
      by_cases hc : (registeredByIp db ip || registeredByMac db (infoMacModel info).1)
          = true
      · rw [if_pos hc] at hr
        exact ih r hr
      · rw [if_neg hc] at hr
        rw [Bool.or_eq_true, not_or] at hc
        rcases List.mem_cons.mp hr with h | h
        · subst h
          exact ⟨Bool.eq_false_iff.mpr hc.1, Bool.eq_false_iff.mpr hc.2⟩
        · exact ih r h

theorem adapterForDevice_db (st : DMState) (d : Device) :
    ((adapterForDevice st d).2).db = st.db := by
  simp only [adapterForDevice]
  rcases lookupCache st.cache d.id with _ | a
  · rcases hip : d.ip with _ | ip
    · rfl
    · by_cases h : ip = "" <;> simp [h]
  · rfl

/-- OneLightDB.update_device_status always performs exactly the update
`SET status = ?`: the `last_seen` keyword argument is removed by the
`allowed` whitelist of update_device_info, whatever value it has. -/
theorem updateDeviceStatus_eq (db : DB) (i : Nat) (s : String) (ls : Option String) :
    updateDeviceStatus db i s ls =
      (true,
        { db with
          rows := db.rows.map (fun d =>
            if d.id == i then { d with status := some s } else d) }) := by
  rcases ls with _ | v
  · simp [updateDeviceStatus, updateDeviceInfo, allowedFields, applyField]
  · by_cases hv : v = "" <;>
      simp [updateDeviceStatus, updateDeviceInfo, allowedFields, applyField, hv]

theorem getDeviceById_updateDeviceStatus (db : DB) (i : Nat) (s : String)
    (ls : Option String) :
    getDeviceById (updateDeviceStatus db i s ls).2 i =
      (getDeviceById db i).map (fun d => { d with status := some s }) := by
  rw [updateDeviceStatus_eq]
  simp only [getDeviceById, List.find?_map]
  have hpf : ((fun d : Device => d.id == i) ∘ fun d =>
      if d.id == i then { d with status := some s } else d)
      = fun d : Device => d.id == i := by
    funext d
    by_cases h : d.id = i
    · simp [h]
    · simp [h]
  rw [hpf]
  rcases hf : List.find? (fun d : Device => d.id == i) db.rows with _ | d
  · simp
  · have hd := List.find?_some hf
    simp only [beq_iff_eq] at hd
    simp [hd]

/-! Concrete sample data used by witnesses and counterexamples. -/

/-- A provisioned device already present in the registry. -/
def sampleRegistered : Device :=
  { id := 1, name := "Lamp", model := "HS100", owner_id := 1,
    ip := some "192.168.1.40", mac := some "11:22:33:44:55:66",
    provisioned := true, status := some "on", last_seen := none }

/-- A registry holding `sampleRegistered`. -/
def sampleDB : DB := { rows := [sampleRegistered], nextId := 2 }

/-- A manager over `sampleDB` with an empty adapter cache. -/
def sampleState : DMState := { db := sampleDB, cache := [] }

/-- A raw scan response for the already-registered device. -/
def sampleKnownResponse : String × Info :=
  ("192.168.1.40", .dict (some "11:22:33:44:55:66") none (some "HS100") none)

/-- A raw scan response for a device the registry does not know. -/
def sampleNewResponse : String × Info :=
  ("192.168.1.50", .dict (some "aa:bb:cc:dd:ee:ff") none (some "HS100") none)

/-- The normalized record for `sampleNewResponse`. -/
def sampleNewRecord : DRecord :=
  { ip := "192.168.1.50", mac := some "aa:bb:cc:dd:ee:ff", model := some "HS100" }

theorem discover_ok_elim (db : DB) (l : List (String × Info)) (recs : List DRecord)
    (h : (if (dedupLoop db l).isEmpty
          then (Except.error PyErr.indexError : Except PyErr (List DRecord))
          else .ok (dedupLoop db l)) = .ok recs) :
    recs = dedupLoop db l := by
  split at h
  · exact Except.noConfusion h
  · injection h with h
    exact h.symm

/-- C1: every record returned by a discovery run has an ip that matches
no registered device and a mac that matches no registered device; a raw
response whose (non-empty) ip or mac is found in the registry is dropped
before the result is returned.  Matching is the check the engine applies:
a lookup by the identifier, performed when the identifier is present and
non-empty (absent or empty identifiers match nothing — the lookups are
never consulted for them). -/
theorem discover_returns_only_unregistered (db : DB)
    (scan1 scanRetry : Except PyErr (List (String × Info))) (recs : List DRecord)
    (h : discover db scan1 scanRetry = .ok recs) :
    ∀ r ∈ recs, registeredByIp db r.ip = false ∧ registeredByMac db r.mac = false := by
  intro r hr
  rcases scan1 with e | results
  · simp [discover] at h
  · rcases results with _ | ⟨p, tl⟩
    · rcases scanRetry with e2 | retry
      · simp [discover] at h
      · simp only [discover, List.isEmpty_nil, if_true] at h
        obtain rfl := discover_ok_elim db retry recs h
        exact dedupLoop_not_registered db retry r hr
    · simp only [discover, List.isEmpty_cons, if_false, Bool.false_eq_true] at h
      obtain rfl := discover_ok_elim db (p :: tl) recs h
      exact dedupLoop_not_registered db (p :: tl) r hr

/-- Witness for C1 at a concrete discovery run: `sampleDB` already holds
the device at 192.168.1.40, the scan reports it together with a new
device at 192.168.1.50, and the surviving record's identifiers are
registered nowhere. -/
theorem discover_returns_only_unregistered_witness :
    registeredByIp sampleDB sampleNewRecord.ip = false ∧
      registeredByMac sampleDB sampleNewRecord.mac = false :=
  discover_returns_only_unregistered sampleDB
    (.ok [sampleKnownResponse, sampleNewResponse]) (.ok []) [sampleNewRecord]
    rfl sampleNewRecord (by decide)

/-- C2 (code bug): the claim says discover never raises and returns an
empty sequence when the scan fails or every response is filtered out as
already registered.  The code instead raises `IndexError`: the debug
logging after the `try` block indexes `discovered[0]` inside eagerly
evaluated f-strings, which fails exactly when the result list is empty.
Both cited failure modes are evaluated here: a scan whose only response
is already registered, and a scan that raises. -/
theorem discover_empty_result_raises :
    discover sampleDB (.ok [sampleKnownResponse]) (.ok []) = .error .indexError ∧
      discover sampleDB (.error (.exc 0)) (.ok []) = .error .indexError :=
  ⟨rfl, rfl⟩

/-- The manager state after the adapter for `sampleRegistered` has been
created and cached. -/
def sampleCachedState : DMState :=
  { db := sampleDB, cache := [(1, { ip := "192.168.1.40" })] }

/-- C3: when the device is registered and the adapter resolves, a failing
adapter command makes turn_on / turn_off re-raise that failure and leaves
the persisted registry untouched — the status update runs only after the
command returns successfully. -/
theorem turn_commands_propagate_adapter_failure (st : DMState) (deviceId : Nat)
    (ensure cmd : Except PyErr Unit) (now : String) (e : PyErr) (d : Device)
    (a : KasaAdapter) (st1 : DMState)
    (hd : getDeviceById st.db deviceId = some d)
    (ha : adapterForDevice st d = (.ok a, st1))
    (hc : kasaTurn ensure cmd = .error e) :
    turnOn st deviceId ensure cmd now = (.error e, st1) ∧
      turnOff st deviceId ensure cmd now = (.error e, st1) ∧
      st1.db = st.db := by
  have hdb : st1.db = st.db := by
    have h0 := adapterForDevice_db st d
    rw [ha] at h0
    exact h0
  refine ⟨?_, ?_, hdb⟩
  · simp only [turnOn, hd, ha, hc]
  · simp only [turnOff, hd, ha, hc]

/-- Witness for C3: a command failure on the registered sample device
propagates and the database part of the state is unchanged. -/
theorem turn_commands_propagate_adapter_failure_witness :
    turnOn sampleState 1 (.ok ()) (.error (.exc 5)) "T" =
        (.error (.exc 5), sampleCachedState) ∧
      turnOff sampleState 1 (.ok ()) (.error (.exc 5)) "T" =
        (.error (.exc 5), sampleCachedState) ∧
      sampleCachedState.db = sampleState.db :=
  turn_commands_propagate_adapter_failure sampleState 1 (.ok ()) (.error (.exc 5))
    "T" (.exc 5) sampleRegistered { ip := "192.168.1.40" } sampleCachedState
    rfl rfl rfl

/-- C4: a turn_on / turn_off call for an id the registry does not know
fails with the device-not-found error (`KeyError`) and leaves the whole
manager state, the persisted registry included, untouched. -/
theorem turn_commands_unknown_device (st : DMState) (deviceId : Nat)
    (ensure cmd : Except PyErr Unit) (now : String)
    (hd : getDeviceById st.db deviceId = none) :
    turnOn st deviceId ensure cmd now = (.error .keyError, st) ∧
      turnOff st deviceId ensure cmd now = (.error .keyError, st) := by
  constructor
  · simp only [turnOn, hd]
  · simp only [turnOff, hd]

/-- Witness for C4: device id 2 is not in `sampleDB`. -/
theorem turn_commands_unknown_device_witness :
    turnOn sampleState 2 (.ok ()) (.ok ()) "T" = (.error .keyError, sampleState) ∧
      turnOff sampleState 2 (.ok ()) (.ok ()) "T" = (.error .keyError, sampleState) :=
  turn_commands_unknown_device sampleState 2 (.ok ()) (.ok ()) "T" rfl

/-- A registered device carrying an old `last_seen` value, and a manager
over a registry holding it. -/
def staleDevice : Device :=
  { id := 1, name := "Lamp", model := "HS100", owner_id := 1,
    ip := some "192.168.1.40", mac := some "11:22:33:44:55:66",
    provisioned := true, status := some "off", last_seen := some "2020-01-01T00:00:00" }

/-- Manager state over a registry holding `staleDevice`. -/
def staleState : DMState :=
  { db := { rows := [staleDevice], nextId := 2 }, cache := [] }

/-- The record the C6 turn_on call actually leaves in the registry:
the status changed to "on" while `last_seen` kept its 2020 value instead
of being set to the call's timestamp. -/
def staleDeviceAfterOn : Device :=
  { id := 1, name := "Lamp", model := "HS100", owner_id := 1,
    ip := some "192.168.1.40", mac := some "11:22:33:44:55:66",
    provisioned := true, status := some "on", last_seen := some "2020-01-01T00:00:00" }

/-- C6 (code bug): after a successful adapter command, turn_on persists
the new status but not `last_seen`: the `last_seen` keyword passed to
update_device_status is removed by update_device_info's `allowed`
whitelist, so the stored timestamp keeps its old value — contradicting
update_device_status's own docstring, the tests' FakeDB behavior, and
the spec.  Evaluated at a successful turn_on: status becomes "on" while
last_seen stays at its stale value; the update with and without the
timestamp produce identical databases. -/
theorem turn_on_success_does_not_persist_last_seen :
    (turnOn staleState 1 (.ok ()) (.ok ()) "2026-10-12T00:00:00").1 = .ok () ∧
      getDeviceById (turnOn staleState 1 (.ok ()) (.ok ()) "2026-10-12T00:00:00").2.db 1 =
        some staleDeviceAfterOn ∧
      (updateDeviceStatus staleState.db 1 "on" (some "2026-10-12T00:00:00")).2 =
        (updateDeviceStatus staleState.db 1 "on" none).2 :=
  ⟨rfl, rfl, rfl⟩

/-- C10: the missing-address check runs only on a cache miss — with an
adapter already cached for the device id, resolution returns it without
inspecting the record's address, so a control call on a device whose
address has since been removed from the registry still proceeds (bound
to the old address) instead of failing with the missing-address error. -/
theorem cached_adapter_bypasses_address_check (st : DMState) (deviceId : Nat)
    (d : Device) (a : KasaAdapter) (now : String)
    (hd : getDeviceById st.db deviceId = some d)
    (_hip : d.ip = none)
    (hc : lookupCache st.cache d.id = some a) :
    adapterForDevice st d = (.ok a, st) ∧
      (turnOn st deviceId (.ok ()) (.ok ()) now).1 = .ok () := by
  have hA : adapterForDevice st d = (.ok a, st) := by
    simp only [adapterForDevice, hc]
  refine ⟨hA, ?_⟩
  simp only [turnOn, hd, hA, kasaTurn]

/-- A registered device record with no address at all. -/
def addresslessDevice : Device :=
  { id := 1, name := "Lamp", model := "HS100", owner_id := 1,
    ip := none, mac := none, provisioned := true, status := none, last_seen := none }

/-- A manager whose registry holds `addresslessDevice` while its cache
still holds the adapter created when the device had an address. -/
def staleCacheState : DMState :=
  { db := { rows := [addresslessDevice], nextId := 2 },
    cache := [(1, { ip := "192.168.1.40" })] }

/-- Witness for C10: the address was removed from the registry record but
the cached adapter still serves a successful turn_on. -/
theorem cached_adapter_bypasses_address_check_witness :
    adapterForDevice staleCacheState addresslessDevice =
        (.ok { ip := "192.168.1.40" }, staleCacheState) ∧
      (turnOn staleCacheState 1 (.ok ()) (.ok ()) "T").1 = .ok () :=
  cached_adapter_bypasses_address_check staleCacheState 1 addresslessDevice
    { ip := "192.168.1.40" } "T" rfl rfl rfl

/-- A manager whose registry holds the addressless device and whose
adapter cache is empty. -/
def addresslessState : DMState :=
  { db := { rows := [addresslessDevice], nextId := 2 }, cache := [] }

/-- C5 counterexample: get_state does raise for a registered device.
Device 1 is registered (the lookup returns it) but has no address, so
adapter resolution raises the missing-address `RuntimeError` before any
adapter read happens, and the call propagates it instead of returning
the conservative default. -/
theorem get_state_raises_for_addressless_device :
    getDeviceById addresslessState.db 1 = some addresslessDevice ∧
      getState addresslessState 1 (.ok ()) (.error (.exc 1)) "T" =
        (.error .runtimeError, addresslessState) :=
  ⟨rfl, rfl⟩

/-- C5 as amended: for a registered device whose adapter resolves (the
record has a usable address, or an adapter is already cached) and whose
connection setup does not raise, a failing adapter read is not
propagated: get_state returns the conservative `{is_on := false}`
mapping — which always carries the boolean `is_on` key — and writes the
observed status "off" back to the registry. -/
theorem get_state_read_failure_returns_conservative_default (st : DMState)
    (deviceId : Nat) (e : PyErr) (now : String) (d : Device) (a : KasaAdapter)
    (st1 : DMState)
    (hd : getDeviceById st.db deviceId = some d)
    (ha : adapterForDevice st d = (.ok a, st1)) :
    (getState st deviceId (.ok ()) (.error e) now).1 = .ok { is_on := false } ∧
      getDeviceById (getState st deviceId (.ok ()) (.error e) now).2.db deviceId =
        some { d with status := some "off" } := by
  have hdb : st1.db = st.db := by
    have h0 := adapterForDevice_db st d
    rw [ha] at h0
    exact h0
  have hred : getState st deviceId (.ok ()) (.error e) now =
      (.ok { is_on := false },
        { st1 with db := (updateDeviceStatus st1.db deviceId "off" (some now)).2 }) := by
    simp only [getState, hd, ha, kasaGetState]
    rfl
  rw [hred]
  refine ⟨rfl, ?_⟩
  rw [hdb, getDeviceById_updateDeviceStatus, hd]
  rfl

/-- Witness for the amended C5: reading the sample device with a failing
adapter read yields the default mapping and the registry shows "off". -/
theorem get_state_read_failure_default_witness :
    (getState sampleState 1 (.ok ()) (.error (.exc 7)) "T").1 = .ok { is_on := false } ∧
      getDeviceById (getState sampleState 1 (.ok ()) (.error (.exc 7)) "T").2.db 1 =
        some { sampleRegistered with status := some "off" } :=
  get_state_read_failure_returns_conservative_default sampleState 1 (.exc 7) "T"
    sampleRegistered { ip := "192.168.1.40" } sampleCachedState rfl rfl

/-- C7: provision builds the registry record from the discovery record's
ip, mac and model (model defaulting to "unknown" when absent), marks it
provisioned, and returns the id the insert assigned; a rejected insert
yields the sentinel `-1` with the registry unchanged.  The embedded
provision is a total function — it never raises (add_device converts
its exceptions to `-1` internally). -/
theorem provision_inserts_or_returns_sentinel (st : DMState)
    (ip mac model : Option String) (owner_id : Nat) (name : String)
    (h : 1 ≤ st.db.nextId) :
    provision st ip mac model owner_id name true = (-1, st) ∧
      (provision st ip mac model owner_id name false).1 = Int.ofNat st.db.nextId ∧
      (provision st ip mac model owner_id name false).2.db.rows =
        st.db.rows ++
          [{ id := st.db.nextId, name := name, model := defaultedModel model,
             owner_id := owner_id, ip := ip, mac := mac, provisioned := true,
             status := none, last_seen := none }] ∧
      defaultedModel none = "unknown" := by
  have hne : st.db.nextId ≠ 0 := by omega
  refine ⟨?_, ?_, ?_, rfl⟩
  · simp [provision, addDevice]
  · simp [provision, addDevice, hne]
  · simp [provision, addDevice, hne]

/-- Witness for C7 at the sample registry (next id 2): the failing insert
returns the sentinel and changes nothing; the successful insert returns
id 2 and appends the provisioned record with the defaulted model. -/
theorem provision_inserts_or_returns_sentinel_witness :
    provision sampleState (some "192.168.1.50") (some "aa:bb:cc:dd:ee:ff") none 7
        "Kitchen" true = (-1, sampleState) ∧
      (provision sampleState (some "192.168.1.50") (some "aa:bb:cc:dd:ee:ff") none 7
        "Kitchen" false).1 = Int.ofNat 2 ∧
      (provision sampleState (some "192.168.1.50") (some "aa:bb:cc:dd:ee:ff") none 7
        "Kitchen" false).2.db.rows =
        sampleDB.rows ++
          [{ id := 2, name := "Kitchen", model := defaultedModel none,
             owner_id := 7, ip := some "192.168.1.50",
             mac := some "aa:bb:cc:dd:ee:ff", provisioned := true,
             status := none, last_seen := none }] ∧
      defaultedModel none = "unknown" :=
  provision_inserts_or_returns_sentinel sampleState (some "192.168.1.50")
    (some "aa:bb:cc:dd:ee:ff") none 7 "Kitchen" (by decide)

/-- C8 counterexample: when the initial scan collects zero responses and
the retry finds only devices that are already registered, discover does
not return the retry's (empty) deduplicated result: the leftover debug
indexing raises `IndexError` instead. -/
theorem discover_retry_all_deduped_raises :
    dedupLoop sampleDB [sampleKnownResponse] = [] ∧
      discover sampleDB (.ok []) (.ok [sampleKnownResponse]) = .error .indexError :=
  ⟨rfl, rfl⟩

/-- C8 as amended: when the initial time-bounded scan collects zero
responses, discover retries exactly once with the protocol's default
discovery parameters (the parameterless `Discover.discover()` call,
modelled by the `scanRetry` oracle) and, whenever at least one retried
response survives normalization and deduplication, returns exactly the
retry's normalized-and-deduplicated records. -/
theorem discover_empty_scan_uses_retry (db : DB) (retry : List (String × Info))
    (h : dedupLoop db retry ≠ []) :
    discover db (.ok []) (.ok retry) = .ok (dedupLoop db retry) := by
  simp only [discover, List.isEmpty_nil, if_true]
  rw [if_neg]
  intro hc
  exact h (List.isEmpty_iff.mp hc)

/-- Witness for the amended C8: an empty initial scan followed by a retry
that finds the unregistered sample device returns that device. -/
theorem discover_empty_scan_uses_retry_witness :
    discover sampleDB (.ok []) (.ok [sampleNewResponse]) =
      .ok (dedupLoop sampleDB [sampleNewResponse]) :=
  discover_empty_scan_uses_retry sampleDB [sampleNewResponse] (by decide)

/-- C9: adapter resolution returns the cached adapter when one exists for
the device id; on a cache miss with a usable address it constructs an
adapter bound to that address, stores it, and returns it, so a second
resolution returns the very same adapter; on a cache miss without a
usable address (`None` or empty — Python truthiness) it fails with the
missing-address `RuntimeError`. -/
theorem adapter_resolution_contract (st : DMState) (d : Device) :
    (∀ a, lookupCache st.cache d.id = some a → adapterForDevice st d = (.ok a, st)) ∧
      (∀ s, lookupCache st.cache d.id = none → d.ip = some s → s ≠ "" →
        adapterForDevice st d =
            (.ok { ip := s }, { st with cache := (d.id, { ip := s }) :: st.cache }) ∧
          adapterForDevice { st with cache := (d.id, { ip := s }) :: st.cache } d =
            (.ok { ip := s }, { st with cache := (d.id, { ip := s }) :: st.cache })) ∧
      (lookupCache st.cache d.id = none → (d.ip = none ∨ d.ip = some "") →
        adapterForDevice st d = (.error .runtimeError, st)) := by
  refine ⟨?_, ?_, ?_⟩
  · intro a hc
    simp only [adapterForDevice, hc]
  · intro s hc hip hs
    constructor
    · simp only [adapterForDevice, hc, hip]
      rw [if_neg hs]
    · have hc2 : lookupCache ((d.id, ({ ip := s } : KasaAdapter)) :: st.cache) d.id
          = some { ip := s } := by
        simp [lookupCache]
      simp only [adapterForDevice, hc2]
  · intro hc hip
    rcases hip with hip | hip
    · simp only [adapterForDevice, hc, hip]
    · simp [adapterForDevice, hc, hip]

/-- Witness for C9: resolving the sample device creates and caches the
adapter, resolving again returns the same adapter and state, and
resolving the addressless device with an empty cache fails with the
missing-address error. -/
theorem adapter_resolution_contract_witness :
    adapterForDevice sampleState sampleRegistered =
        (.ok { ip := "192.168.1.40" }, sampleCachedState) ∧
      adapterForDevice sampleCachedState sampleRegistered =
        (.ok { ip := "192.168.1.40" }, sampleCachedState) ∧
      adapterForDevice addresslessState addresslessDevice =
        (.error .runtimeError, addresslessState) := by
  obtain ⟨h1, h2⟩ := (adapter_resolution_contract sampleState sampleRegistered).2.1
    "192.168.1.40" rfl rfl (by decide)
  exact ⟨h1, h2,
    (adapter_resolution_contract addresslessState addresslessDevice).2.2 rfl
      (Or.inl rfl)⟩

end OneLight
